import Mathlib

/-!
Shallow embedding of the article CRUD HTTP service (`main.go`): the data
model (`Article`, `ValidationError`), the request decoding and validation
steps, and the five article handlers, with the Postgres table modelled as
an in-memory list of rows together with the `SERIAL` id counter. Each
handler returns the HTTP response it writes, the table state after the
request, and the list of parameterized SQL statements it submitted
(query text paired with the parameter values).
-/

/-- The `Article` struct of `main.go`: `Id int`, `Title string`,
`Content string`, with JSON names `id`, `title`, `content` and
`validate:"required"` tags on `Title` and `Content`. -/
structure Article where
  id : Int
  title : String
  content : String
deriving DecidableEq

/-- The `ValidationError` struct of `main.go`: JSON fields `key` and
`error`. -/
structure ValidationError where
  key : String
  error : String
deriving DecidableEq

/-- Result of a successful `json.Unmarshal` of a request body into an
`Article`: each JSON field is either present with a value or absent.
Absent fields leave the Go zero value in the struct (see
`decodeArticle`). A body that fails to unmarshal altogether is modelled
as `none` at the handler's `Option RawBody` argument. -/
structure RawBody where
  idField : Option Int
  titleField : Option String
  contentField : Option String
deriving DecidableEq

/-- The article value produced by `json.Unmarshal(payload, &article)`:
fields absent from the JSON object keep Go's zero values `0` / `""`. -/
def decodeArticle (raw : RawBody) : Article :=
  { id := raw.idField.getD 0
    title := raw.titleField.getD ""
    content := raw.contentField.getD "" }

/-- State of the `articles` table: the stored rows plus the next value of
the `SERIAL` primary-key counter. -/
structure DBState where
  rows : List Article
  nextId : Int
deriving DecidableEq

/-- The invariant Postgres maintains for a `SERIAL` column the
application never writes explicitly: the counter is positive (`SERIAL`
starts at 1) and strictly greater than every id already in the table. -/
def DBState.WF (st : DBState) : Prop :=
  0 < st.nextId ∧ ∀ a ∈ st.rows, a.id < st.nextId

/-- The row returned by `SELECT * FROM articles WHERE id = $1`: the first
row whose id matches (`id` is the primary key, so at most one matches in
a well-formed table); `none` models `sql.ErrNoRows`. -/
def DBState.getById (st : DBState) (articleId : Int) : Option Article :=
  st.rows.find? (fun a => decide (a.id = articleId))

/-- A parameter value bound to a `$n` placeholder of a statement. -/
inductive SqlParam where
  | int (i : Int)
  | str (s : String)
deriving DecidableEq

/-- A statement submitted to the database: the query text together with
the parameter values bound to its placeholders. -/
abbrev SqlCall := String × List SqlParam

/-- The JSON body written by a handler, by shape:
an Article object, an array of Articles, an array of ValidationErrors,
or a `\x7b"message": ...\x7d` object. `none` on a `Response` means the
handler wrote no body (`WriteHeader` only). -/
inductive Body where
  | article (a : Article)
  | articleList (l : List Article)
  | validationErrors (l : List ValidationError)
  | message (m : String)
deriving DecidableEq

/-- The HTTP response a handler writes: status code and optional JSON
body. -/
structure Response where
  status : Nat
  body : Option Body
deriving DecidableEq

/-- Query text of `returnAllArticles`. -/
def selectAllQuery : String := "SELECT * FROM articles"

/-- Query text of `returnSingleArticle`. -/
def selectByIdQuery : String := "SELECT * FROM articles WHERE id = $1"

/-- Query text of `createNewArticle`. -/
def insertQuery : String :=
  "INSERT INTO articles (title, content) VALUES ($1, $2) RETURNING id, title, content"

/-- Query text of `deleteArticleById`. -/
def deleteQuery : String := "DELETE FROM articles WHERE id = $1"

/-- Query text of `updateArticle`. -/
def updateQuery : String := "UPDATE articles SET title = $1, content = $2 WHERE id = $3"

/-- The entry `createNewArticle` accumulates for a missing `Title`:
`Key: fmt.Sprintf("'%s'", e.Field())` and
`Error: fmt.Sprintf("Field validation for '%s' failed on the 'required' tag", e.Field())`,
where `e.Field()` is the Go struct field name `Title`. -/
def titleRequiredError : ValidationError :=
  { key := "'Title'"
    error := "Field validation for 'Title' failed on the 'required' tag" }

/-- The entry `createNewArticle` accumulates for a missing `Content`
(field name `Content`). -/
def contentRequiredError : ValidationError :=
  { key := "'Content'"
    error := "Field validation for 'Content' failed on the 'required' tag" }

/-- `validator.New().Struct(article)` for the `Article` struct: the
`required` tag on a string field fails exactly when the field holds the
zero value `""`; fields are checked in struct declaration order
(`Title`, then `Content`); `FieldError.Field()` reports the Go struct
field name (no tag-name function is registered), so the handler's
`fmt.Sprintf` calls produce the key `'Title'` / `'Content'` and the
message `Field validation for 'Title' failed on the 'required' tag`
(likewise for `Content`). Returns the list of per-field errors the
handler accumulates. -/
def validateArticle (a : Article) : List ValidationError :=
  (if a.title = "" then [titleRequiredError] else []) ++
  (if a.content = "" then [contentRequiredError] else [])

/-- The `\x7b"message": "Article not found"\x7d` body the handlers write
alongside a 404. -/
def notFoundBody : Body := Body.message "Article not found"

/-- `rowsAffected, _ := result.RowsAffected()`: the error return is
discarded. When the driver reports an error (`raErr = some e`) it
returns a zero count alongside the error, so the handler sees `0`
regardless of how many rows the statement actually touched. -/
def rowsAffectedValue (actual : Nat) (raErr : Option String) : Nat :=
  match raErr with
  | none => actual
  | some _ => 0

/-- Handler `returnAllArticles` (GET `/articles`): selects every row and
writes a 200 with the JSON array of articles. The slice is built with
`make([]Article, 0)` and is therefore non-nil, so the empty table
encodes as `[]`, never `null` (see `encodeArticlesJson`). Storage is
assumed reachable (the 500 branches model driver failures, outside this
state model). -/
def returnAllArticles (st : DBState) : Response × List SqlCall :=
  ({ status := 200, body := some (Body.articleList st.rows) }, [(selectAllQuery, [])])

/-- Handler `returnSingleArticle` (GET `/articles/{id}`): one
parameterized `SELECT ... WHERE id = $1`; `sql.ErrNoRows` maps to a 404
with the not-found message, a matching row to a 200 with the article.
The path parameter is the string forwarded to Postgres and compared with
the integer `id` column; it is modelled as the integer value (a
non-numeric id takes the storage-error 500 path, outside this model). -/
def returnSingleArticle (st : DBState) (articleId : Int) : Response × List SqlCall :=
  match st.getById articleId with
  | some a =>
      ({ status := 200, body := some (Body.article a) }, [(selectByIdQuery, [SqlParam.int articleId])])
  | none =>
      ({ status := 404, body := some notFoundBody }, [(selectByIdQuery, [SqlParam.int articleId])])

/-- Handler `createNewArticle` (POST `/articles`): unmarshal the body
(`none` = `json.Unmarshal` error, answered with
`http.StatusInternalServerError` and no storage call), validate, and on
validation errors write a 400 with the accumulated list; otherwise run
the parameterized `INSERT ... RETURNING` which assigns `nextId` as the
new row's id, and write a 201 with the row as returned by the
database. -/
def createNewArticle (st : DBState) (body : Option RawBody) :
    Response × DBState × List SqlCall :=
  match body with
  | none => ({ status := 500, body := none }, st, [])
  | some raw =>
      let newArticle := decodeArticle raw
      let errs := validateArticle newArticle
      if errs.isEmpty then
        let inserted : Article :=
          { id := st.nextId, title := newArticle.title, content := newArticle.content }
        ({ status := 201, body := some (Body.article inserted) },
         { rows := st.rows ++ [inserted], nextId := st.nextId + 1 },
         [(insertQuery, [SqlParam.str newArticle.title, SqlParam.str newArticle.content])])
      else
        ({ status := 400, body := some (Body.validationErrors errs) }, st, [])

/-- Handler `deleteArticleById` (DELETE `/articles/{id}`): one
parameterized `DELETE ... WHERE id = $1` (which removes every matching
row from the table), then `rowsAffected, _ := result.RowsAffected()`;
a zero count maps to a 404 with the not-found body, otherwise a 204
with no body. `raErr` is the discarded `RowsAffected` error report. -/
def deleteArticleById (st : DBState) (articleId : Int) (raErr : Option String) :
    Response × DBState × List SqlCall :=
  let call : SqlCall := (deleteQuery, [SqlParam.int articleId])
  let newState : DBState :=
    { rows := st.rows.filter (fun a => decide (a.id ≠ articleId)), nextId := st.nextId }
  let affected := rowsAffectedValue (st.rows.countP (fun a => decide (a.id = articleId))) raErr
  if affected = 0 then
    ({ status := 404, body := some notFoundBody }, newState, [call])
  else
    ({ status := 204, body := none }, newState, [call])

/-- Handler `updateArticle` (PUT `/articles/{id}`): unmarshal the body
(`none` = `json.Unmarshal` error, answered with
`http.StatusInternalServerError` and no storage call), then one
parameterized `UPDATE ... WHERE id = $3` (which rewrites title and
content of every matching row), then
`rowsAffected, _ := result.RowsAffected()`; a zero count maps to a 404
with the not-found body, otherwise a 200 whose body is the decoded
request article (`updatedArticle`), not a row read back from the
table. -/
def updateArticle (st : DBState) (articleId : Int) (body : Option RawBody)
    (raErr : Option String) : Response × DBState × List SqlCall :=
  match body with
  | none => ({ status := 500, body := none }, st, [])
  | some raw =>
      let updatedArticle := decodeArticle raw
      let call : SqlCall :=
        (updateQuery,
         [SqlParam.str updatedArticle.title, SqlParam.str updatedArticle.content,
          SqlParam.int articleId])
      let newState : DBState :=
        { rows := st.rows.map (fun a =>
            if a.id = articleId then
              { a with title := updatedArticle.title, content := updatedArticle.content }
            else a)
          nextId := st.nextId }
      let affected := rowsAffectedValue (st.rows.countP (fun a => decide (a.id = articleId))) raErr
      if affected = 0 then
        ({ status := 404, body := some notFoundBody }, newState, [call])
      else
        ({ status := 200, body := some (Body.article updatedArticle) }, newState, [call])

/-- Hexadecimal digit used by the `\u00XX` escapes of Go's JSON
encoder. -/
def hexDigit (n : Nat) : Char :=
  if n < 10 then Char.ofNat (48 + n) else Char.ofNat (87 + n)

/-- Escaping performed by `encoding/json` (with its default HTML
escaping) on one character of a string value. -/
def goEscapeChar (c : Char) : String :=
  if c = '"' then "\\\""
  else if c = '\\' then "\\\\"
  else if c = '\n' then "\\n"
  else if c = '\r' then "\\r"
  else if c = '\t' then "\\t"
  else if c = '<' then "\\u003c"
  else if c = '>' then "\\u003e"
  else if c = '&' then "\\u0026"
  else if c.toNat < 32 then
    "\\u00" ++ String.mk [hexDigit (c.toNat / 16), hexDigit (c.toNat % 16)]
  else String.mk [c]

/-- `encoding/json` escaping of a whole string value. -/
def goEscapeString (s : String) : String :=
  String.join (s.toList.map goEscapeChar)

/-- JSON text `json.NewEncoder(w).Encode` produces for one `Article`
value (the trailing newline `Encode` appends is not modelled). -/
def encodeArticleJson (a : Article) : String :=
  "\x7b\"id\":" ++ toString a.id ++
  ",\"title\":\"" ++ goEscapeString a.title ++
  "\",\"content\":\"" ++ goEscapeString a.content ++ "\"\x7d"

/-- JSON text `json.NewEncoder(w).Encode` produces for the non-nil
`[]Article` slice `returnAllArticles` builds: `[]` when empty (a nil
slice would encode as `null`, but the handler always starts from
`make([]Article, 0)`). -/
def encodeArticlesJson (l : List Article) : String :=
  "[" ++ String.intercalate "," (l.map encodeArticleJson) ++ "]"

/-- The empty table with the `SERIAL` counter at its initial value 1
satisfies the well-formedness invariant. -/
theorem wf_initial : DBState.WF ⟨[], 1⟩ := by
  refine ⟨by decide, ?_⟩
  intro a ha
  cases ha

/-- A successful insert preserves the `SERIAL` invariant. -/
theorem wf_createNewArticle (st : DBState) (body : Option RawBody)
    (hwf : DBState.WF st) : DBState.WF (createNewArticle st body).2.1 := by
  cases body with
  | none => exact hwf
  | some raw =>
      by_cases h : (validateArticle (decodeArticle raw)).isEmpty
      · refine ⟨?_, ?_⟩
        · simp only [createNewArticle, h, if_pos]
          exact lt_trans hwf.1 (lt_add_one st.nextId)
        · simp only [createNewArticle, h, if_pos]
          intro a ha
          rcases List.mem_append.mp ha with h1 | h1
          · exact lt_trans (hwf.2 a h1) (lt_add_one st.nextId)
          · rcases List.mem_singleton.mp h1 with rfl
            exact lt_add_one st.nextId
      · simp only [createNewArticle, h, if_neg, Bool.false_eq_true, not_false_iff]
        exact hwf

/-- A fresh row appended behind rows whose ids are all below `bound` is
the row `find?` locates when searching for id `bound`. -/
theorem find_fresh (rows : List Article) (x : Article) (bound : Int)
    (h : ∀ a ∈ rows, a.id < bound) (hx : x.id = bound) :
    (rows ++ [x]).find? (fun a => decide (a.id = bound)) = some x := by
  rw [List.find?_append]
  have h1 : rows.find? (fun a => decide (a.id = bound)) = none := by
    rw [List.find?_eq_none]
    intro a ha
    simp only [decide_eq_true_eq]
    exact ne_of_lt (h a ha)
  rw [h1]
  simp [List.find?, hx]

/-- When `getById` finds no row, no row of the table has the id. -/
theorem forall_ne_of_getById_none (st : DBState) (i : Int)
    (h : st.getById i = none) : ∀ a ∈ st.rows, ¬ a.id = i := by
  rw [DBState.getById, List.find?_eq_none] at h
  intro a ha
  have := h a ha
  simpa using this

/-- When `getById` finds no row, the matching-row count is zero. -/
theorem countP_zero_of_getById_none (st : DBState) (i : Int)
    (h : st.getById i = none) :
    st.rows.countP (fun a => decide (a.id = i)) = 0 := by
  rw [List.countP_eq_zero]
  intro a ha
  simpa using forall_ne_of_getById_none st i h a ha

/-- An `UPDATE ... WHERE id = $3` that matches no row leaves the rows
unchanged. -/
theorem map_update_of_no_match (rows : List Article) (i : Int) (t c : String)
    (h : ∀ a ∈ rows, ¬ a.id = i) :
    rows.map (fun a => if a.id = i then { a with title := t, content := c } else a) = rows := by
  induction rows with
  | nil => rfl
  | cons a l ih =>
      rw [List.forall_mem_cons] at h
      simp only [List.map_cons, if_neg h.1, ih h.2]

/-- C1: for every valid input pair (title, content), POST `/articles`
returns 201 with an Article whose title and content equal the input and
whose id is a positive integer assigned by storage (the `SERIAL`
counter), and a subsequent GET `/articles/{id}` with that returned id
returns 200 with an Article equal in title and content. -/
theorem c1_post_then_get (st : DBState) (raw : RawBody) (hwf : DBState.WF st)
    (ht : (decodeArticle raw).title ≠ "") (hc : (decodeArticle raw).content ≠ "") :
    ∃ newId : Int, 0 < newId ∧
      (createNewArticle st (some raw)).1 =
        { status := 201,
          body := some (Body.article
            ⟨newId, (decodeArticle raw).title, (decodeArticle raw).content⟩) } ∧
      (returnSingleArticle (createNewArticle st (some raw)).2.1 newId).1 =
        { status := 200,
          body := some (Body.article
            ⟨newId, (decodeArticle raw).title, (decodeArticle raw).content⟩) } := by
  have herr : validateArticle (decodeArticle raw) = [] := by
    simp [validateArticle, ht, hc]
  refine ⟨st.nextId, hwf.1, ?_, ?_⟩
  · simp [createNewArticle, herr]
  · have hstate : (createNewArticle st (some raw)).2.1 =
        ⟨st.rows ++ [⟨st.nextId, (decodeArticle raw).title, (decodeArticle raw).content⟩],
         st.nextId + 1⟩ := by
      simp [createNewArticle, herr]
    rw [hstate]
    have hget : DBState.getById
        ⟨st.rows ++ [⟨st.nextId, (decodeArticle raw).title, (decodeArticle raw).content⟩],
         st.nextId + 1⟩ st.nextId =
        some ⟨st.nextId, (decodeArticle raw).title, (decodeArticle raw).content⟩ :=
      find_fresh st.rows _ st.nextId hwf.2 rfl
    simp [returnSingleArticle, hget]

/-- C1 witness: POSTing `title := "Hello"`, `content := "World"` to the
empty table yields id 1 and the GET round trip. -/
theorem c1_post_then_get_witness :
    DBState.WF ⟨[], 1⟩ ∧
    ∃ newId : Int, 0 < newId ∧
      (createNewArticle ⟨[], 1⟩ (some ⟨none, some "Hello", some "World"⟩)).1 =
        { status := 201, body := some (Body.article ⟨newId, "Hello", "World"⟩) } ∧
      (returnSingleArticle
        (createNewArticle ⟨[], 1⟩ (some ⟨none, some "Hello", some "World"⟩)).2.1 newId).1 =
        { status := 200, body := some (Body.article ⟨newId, "Hello", "World"⟩) } :=
  ⟨wf_initial,
   c1_post_then_get ⟨[], 1⟩ ⟨none, some "Hello", some "World"⟩ wf_initial
     (by decide) (by decide)⟩

/-- C2 counterexample: a POST body with title missing and content
`"World"` yields a 400 with exactly one ValidationError entry, but that
entry's error message interpolates the Go struct field name `Title`, so
it differs from the message the claim states for the `title` field. -/
theorem c2_counterexample :
    (createNewArticle ⟨[], 1⟩ (some ⟨none, none, some "World"⟩)).1.status = 400 ∧
    (createNewArticle ⟨[], 1⟩ (some ⟨none, none, some "World"⟩)).1.body =
      some (Body.validationErrors [titleRequiredError]) ∧
    titleRequiredError.error ≠
      "Field validation for 'title' failed on the 'required' tag" := by
  refine ⟨by decide, by decide, by decide⟩

/-- C2 (amended): a POST body whose title is missing (empty) and whose
content is present yields 400 with exactly one ValidationError entry,
for the `Title` field; when both title and content are missing the
response contains exactly two entries, one per field, in the order
`Title` then `Content`; each entry's message is exactly
`Field validation for '<Field>' failed on the 'required' tag` with the
Go struct field name (`Title`, `Content`) interpolated, not the JSON
field name. -/
theorem c2_required_field_errors (st : DBState) (raw : RawBody) :
    ((decodeArticle raw).title = "" → (decodeArticle raw).content ≠ "" →
      (createNewArticle st (some raw)).1 =
        { status := 400, body := some (Body.validationErrors [titleRequiredError]) }) ∧
    ((decodeArticle raw).title = "" → (decodeArticle raw).content = "" →
      (createNewArticle st (some raw)).1 =
        { status := 400,
          body := some (Body.validationErrors [titleRequiredError, contentRequiredError]) }) := by
  constructor
  · intro h1 h2
    simp [createNewArticle, validateArticle, h1, h2]
  · intro h1 h2
    simp [createNewArticle, validateArticle, h1, h2]

/-- C2 witness: title-only missing at `content := "World"`, and both
fields missing, on the empty table. -/
theorem c2_required_field_errors_witness :
    (createNewArticle ⟨[], 1⟩ (some ⟨none, none, some "World"⟩)).1 =
      { status := 400, body := some (Body.validationErrors [titleRequiredError]) } ∧
    (createNewArticle ⟨[], 1⟩ (some ⟨none, none, none⟩)).1 =
      { status := 400,
        body := some (Body.validationErrors [titleRequiredError, contentRequiredError]) } :=
  ⟨(c2_required_field_errors ⟨[], 1⟩ ⟨none, none, some "World"⟩).1 rfl (by decide),
   (c2_required_field_errors ⟨[], 1⟩ ⟨none, none, none⟩).2 rfl rfl⟩

/-- C3 counterexample: on an unparseable body, both `createNewArticle`
and `updateArticle` respond 500 (`http.StatusInternalServerError`), not
the 400 the claim states. -/
theorem c3_counterexample :
    (createNewArticle ⟨[], 1⟩ none).1.status = 500 ∧
    ¬ (createNewArticle ⟨[], 1⟩ none).1.status = 400 ∧
    (updateArticle ⟨[], 1⟩ 1 none none).1.status = 500 ∧
    ¬ (updateArticle ⟨[], 1⟩ 1 none none).1.status = 400 := by
  refine ⟨by decide, by decide, by decide, by decide⟩

/-- C3 (amended): for every request to POST `/articles` or PUT
`/articles/{id}` whose body is present but not parseable as the
expected Article JSON shape, the handler short-circuits without calling
storage (no SQL statement is submitted, state unchanged) and responds
with status 500, not 400. -/
theorem c3_decode_error_short_circuit (st : DBState) (articleId : Int)
    (raErr : Option String) :
    createNewArticle st none = ({ status := 500, body := none }, st, []) ∧
    updateArticle st articleId none raErr = ({ status := 500, body := none }, st, []) := by
  exact ⟨rfl, rfl⟩

/-- C4: for every id that matches no stored row, GET `/articles/{id}`,
PUT `/articles/{id}` (with a parseable body, normal driver reporting),
and DELETE `/articles/{id}` each respond with status 404 and the JSON
body with message `Article not found`. -/
theorem c4_not_found_404 (st : DBState) (articleId : Int) (raw : RawBody)
    (h : st.getById articleId = none) :
    (returnSingleArticle st articleId).1 = { status := 404, body := some notFoundBody } ∧
    (updateArticle st articleId (some raw) none).1 =
      { status := 404, body := some notFoundBody } ∧
    (deleteArticleById st articleId none).1 =
      { status := 404, body := some notFoundBody } := by
  have hcount := countP_zero_of_getById_none st articleId h
  refine ⟨?_, ?_, ?_⟩
  · simp [returnSingleArticle, h]
  · simp [updateArticle, rowsAffectedValue, hcount]
  · simp [deleteArticleById, rowsAffectedValue, hcount]

/-- C4 witness: id 7 on the empty table. -/
theorem c4_not_found_404_witness :
    DBState.getById ⟨[], 1⟩ 7 = none ∧
    (returnSingleArticle ⟨[], 1⟩ 7).1 = { status := 404, body := some notFoundBody } ∧
    (updateArticle ⟨[], 1⟩ 7 (some ⟨none, some "t", some "c"⟩) none).1 =
      { status := 404, body := some notFoundBody } ∧
    (deleteArticleById ⟨[], 1⟩ 7 none).1 =
      { status := 404, body := some notFoundBody } :=
  ⟨rfl, c4_not_found_404 ⟨[], 1⟩ 7 ⟨none, some "t", some "c"⟩ rfl⟩

/-- C5: for every id not present in storage and every parseable body,
PUT `/articles/{id}` responds 404 and leaves the stored articles
unchanged: the state after the request equals the state before, so no
row is created and the row count is the same. -/
theorem c5_put_nonexistent_unchanged (st : DBState) (articleId : Int) (raw : RawBody)
    (h : st.getById articleId = none) :
    (updateArticle st articleId (some raw) none).1.status = 404 ∧
    (updateArticle st articleId (some raw) none).2.1 = st ∧
    ((updateArticle st articleId (some raw) none).2.1).rows.length = st.rows.length := by
  have hcount := countP_zero_of_getById_none st articleId h
  have hmap := map_update_of_no_match st.rows articleId
    (decodeArticle raw).title (decodeArticle raw).content
    (forall_ne_of_getById_none st articleId h)
  have hstate : (updateArticle st articleId (some raw) none).2.1 = st := by
    simp [updateArticle, rowsAffectedValue, hcount, hmap]
  refine ⟨?_, hstate, by rw [hstate]⟩
  simp [updateArticle, rowsAffectedValue, hcount]

/-- C5 witness: id 3 against a one-row table. -/
theorem c5_put_nonexistent_unchanged_witness :
    DBState.getById ⟨[⟨1, "a", "b"⟩], 2⟩ 3 = none ∧
    (updateArticle ⟨[⟨1, "a", "b"⟩], 2⟩ 3 (some ⟨none, some "t", some "c"⟩) none).1.status = 404 ∧
    (updateArticle ⟨[⟨1, "a", "b"⟩], 2⟩ 3 (some ⟨none, some "t", some "c"⟩) none).2.1 =
      ⟨[⟨1, "a", "b"⟩], 2⟩ ∧
    ((updateArticle ⟨[⟨1, "a", "b"⟩], 2⟩ 3 (some ⟨none, some "t", some "c"⟩) none).2.1).rows.length =
      ([⟨1, "a", "b"⟩] : List Article).length :=
  ⟨by decide,
   c5_put_nonexistent_unchanged ⟨[⟨1, "a", "b"⟩], 2⟩ 3 ⟨none, some "t", some "c"⟩ (by decide)⟩

/-- C6: when the articles table is empty, GET `/articles` responds with
status 200 — not 404 — and the body is the empty article array, whose
JSON encoding is `[]` — not `null` (the handler's slice is non-nil). -/
theorem c6_empty_table_200 (st : DBState) (h : st.rows = []) :
    (returnAllArticles st).1.status = 200 ∧
    (returnAllArticles st).1.status ≠ 404 ∧
    (returnAllArticles st).1.body = some (Body.articleList []) ∧
    encodeArticlesJson [] = "[]" ∧
    ("[]" : String) ≠ "null" := by
  refine ⟨rfl, by simp [returnAllArticles], by simp [returnAllArticles, h], by decide, by decide⟩

/-- C6 witness: an empty table with the counter at 5. -/
theorem c6_empty_table_200_witness :
    (returnAllArticles ⟨[], 5⟩).1.status = 200 ∧
    (returnAllArticles ⟨[], 5⟩).1.status ≠ 404 ∧
    (returnAllArticles ⟨[], 5⟩).1.body = some (Body.articleList []) ∧
    encodeArticlesJson [] = "[]" ∧
    ("[]" : String) ≠ "null" :=
  c6_empty_table_200 ⟨[], 5⟩ rfl

/-- C7: for every POST `/articles` request that produces one or more
validation errors, the handler returns the full error list together in
one 400 response, performs no storage operation (no SQL statement is
submitted), and the stored state is unchanged. -/
theorem c7_validation_blocks_insert (st : DBState) (raw : RawBody)
    (h : validateArticle (decodeArticle raw) ≠ []) :
    (createNewArticle st (some raw)).1 =
      { status := 400,
        body := some (Body.validationErrors (validateArticle (decodeArticle raw))) } ∧
    (createNewArticle st (some raw)).2.1 = st ∧
    (createNewArticle st (some raw)).2.2 = [] := by
  have hne : (validateArticle (decodeArticle raw)).isEmpty = false := by
    cases he : validateArticle (decodeArticle raw) with
    | nil => exact absurd he h
    | cons a l => rfl
  refine ⟨?_, ?_, ?_⟩ <;> simp [createNewArticle, hne]

/-- C7 witness: a body with both fields missing on a one-row table. -/
theorem c7_validation_blocks_insert_witness :
    validateArticle (decodeArticle ⟨none, none, none⟩) ≠ [] ∧
    (createNewArticle ⟨[⟨1, "a", "b"⟩], 2⟩ (some ⟨none, none, none⟩)).1 =
      { status := 400,
        body := some (Body.validationErrors
          (validateArticle (decodeArticle ⟨none, none, none⟩))) } ∧
    (createNewArticle ⟨[⟨1, "a", "b"⟩], 2⟩ (some ⟨none, none, none⟩)).2.1 =
      ⟨[⟨1, "a", "b"⟩], 2⟩ ∧
    (createNewArticle ⟨[⟨1, "a", "b"⟩], 2⟩ (some ⟨none, none, none⟩)).2.2 = [] :=
  ⟨by decide, c7_validation_blocks_insert ⟨[⟨1, "a", "b"⟩], 2⟩ ⟨none, none, none⟩ (by decide)⟩

/-- C8: the query text each handler submits to storage is a fixed
constant, independent of the user-supplied id, title, content and of the
table state — user input travels only in the parameter list, never
interpolated into the query string. Consequently any two requests to the
same endpoint that differ only in user-supplied values submit identical
query text (each submits its endpoint's constant, or nothing when it
short-circuits before storage). -/
theorem c8_parameterized_queries (st : DBState) (articleId : Int)
    (body : Option RawBody) (raErr : Option String) :
    (returnAllArticles st).2.map Prod.fst = [selectAllQuery] ∧
    (returnSingleArticle st articleId).2.map Prod.fst = [selectByIdQuery] ∧
    ((createNewArticle st body).2.2.map Prod.fst = [] ∨
      (createNewArticle st body).2.2.map Prod.fst = [insertQuery]) ∧
    (deleteArticleById st articleId raErr).2.2.map Prod.fst = [deleteQuery] ∧
    ((updateArticle st articleId body raErr).2.2.map Prod.fst = [] ∨
      (updateArticle st articleId body raErr).2.2.map Prod.fst = [updateQuery]) := by
  refine ⟨rfl, ?_, ?_, ?_, ?_⟩
  · cases hg : st.getById articleId <;> simp [returnSingleArticle, hg]
  · cases body with
    | none => exact Or.inl rfl
    | some raw =>
        by_cases h : (validateArticle (decodeArticle raw)).isEmpty
        · exact Or.inr (by simp [createNewArticle, h])
        · exact Or.inl (by simp [createNewArticle, h])
  · simp only [deleteArticleById]
    split <;> rfl
  · cases body with
    | none => exact Or.inl rfl
    | some raw =>
        refine Or.inr ?_
        simp only [updateArticle]
        split <;> rfl

/-- C9: for every successful PUT `/articles/{id}` (a row with the path
id exists and the driver reports normally), the 200 response body is the
decoded request body, whose id field is whatever id the client sent in
the JSON body — `raw.idField.getD 0`, i.e. zero when omitted — not the
path parameter `articleId` of the row that was updated. -/
theorem c9_put_echoes_request_body (st : DBState) (articleId : Int) (raw : RawBody)
    (h : ∃ a ∈ st.rows, a.id = articleId) :
    (updateArticle st articleId (some raw) none).1 =
      { status := 200, body := some (Body.article (decodeArticle raw)) } ∧
    (decodeArticle raw).id = raw.idField.getD 0 := by
  have hcount : st.rows.countP (fun a => decide (a.id = articleId)) ≠ 0 := by
    rw [Ne, List.countP_eq_zero]
    push_neg
    rcases h with ⟨a, ha, hid⟩
    exact ⟨a, ha, by simpa using hid⟩
  refine ⟨?_, rfl⟩
  simp [updateArticle, rowsAffectedValue, hcount]

/-- C9 witness: path id 1, body id 42 — the response carries 42. -/
theorem c9_put_echoes_request_body_witness :
    (∃ a ∈ ([⟨1, "a", "b"⟩] : List Article), a.id = 1) ∧
    (updateArticle ⟨[⟨1, "a", "b"⟩], 2⟩ 1 (some ⟨some 42, some "t", some "c"⟩) none).1 =
      { status := 200, body := some (Body.article ⟨42, "t", "c"⟩) } ∧
    ((42 : Int) = Option.getD (some 42) 0 ∧ (42 : Int) ≠ 1) :=
  ⟨by decide,
   (c9_put_echoes_request_body ⟨[⟨1, "a", "b"⟩], 2⟩ 1 ⟨some 42, some "t", some "c"⟩
     (by decide)).1,
   by decide, by decide⟩

/-- A `DELETE ... WHERE id = $1` that matches some row strictly shrinks
the table. -/
theorem length_filter_lt_of_mem (rows : List Article) (i : Int) (a : Article)
    (ha : a ∈ rows) (hid : a.id = i) :
    (rows.filter (fun b => decide (b.id ≠ i))).length < rows.length := by
  induction rows with
  | nil => cases ha
  | cons x l ih =>
      rcases List.mem_cons.mp ha with rfl | hmem
      · rw [List.filter_cons, if_neg (by simp [hid])]
        exact Nat.lt_succ_of_le (List.length_filter_le _ l)
      · rw [List.filter_cons]
        by_cases hx : decide (x.id ≠ i) = true
        · rw [if_pos hx]
          simpa using Nat.succ_lt_succ (ih hmem)
        · rw [if_neg hx]
          exact Nat.lt_succ_of_lt (ih hmem)

/-- C10: in DELETE `/articles/{id}` and PUT `/articles/{id}`, when the
statement itself succeeded and modified a row (a matching row exists)
but `RowsAffected` reports an error, the discarded error makes the count
read as zero, so the handler responds 404 `Article not found` even
though the delete removed the row (count strictly drops) and the update
rewrote it (the row now carries the request's title and content). -/
theorem c10_rows_affected_error_404 (st : DBState) (articleId : Int) (raw : RawBody)
    (e : String) (h : ∃ a ∈ st.rows, a.id = articleId) :
    (deleteArticleById st articleId (some e)).1 =
      { status := 404, body := some notFoundBody } ∧
    ((deleteArticleById st articleId (some e)).2.1).rows.length < st.rows.length ∧
    (updateArticle st articleId (some raw) (some e)).1 =
      { status := 404, body := some notFoundBody } ∧
    (∃ a ∈ ((updateArticle st articleId (some raw) (some e)).2.1).rows,
      a.id = articleId ∧ a.title = (decodeArticle raw).title ∧
      a.content = (decodeArticle raw).content) := by
  rcases h with ⟨a, ha, hid⟩
  refine ⟨rfl, ?_, rfl, ?_⟩
  · simp only [deleteArticleById, rowsAffectedValue]
    rw [if_pos trivial]
    exact length_filter_lt_of_mem st.rows articleId a ha hid
  · have hmem : (⟨a.id, (decodeArticle raw).title, (decodeArticle raw).content⟩ : Article) ∈
        ((updateArticle st articleId (some raw) (some e)).2.1).rows := by
      simp only [updateArticle, rowsAffectedValue]
      rw [if_pos trivial]
      exact List.mem_map.mpr ⟨a, ha, by simp [hid]⟩
    exact ⟨_, hmem, hid, rfl, rfl⟩

/-- C10 witness: one-row table, matching id 1, driver error `boom`. -/
theorem c10_rows_affected_error_404_witness :
    (∃ a ∈ ([⟨1, "a", "b"⟩] : List Article), a.id = 1) ∧
    (deleteArticleById ⟨[⟨1, "a", "b"⟩], 2⟩ 1 (some "boom")).1 =
      { status := 404, body := some notFoundBody } ∧
    ((deleteArticleById ⟨[⟨1, "a", "b"⟩], 2⟩ 1 (some "boom")).2.1).rows.length <
      ([⟨1, "a", "b"⟩] : List Article).length ∧
    (updateArticle ⟨[⟨1, "a", "b"⟩], 2⟩ 1 (some ⟨none, some "t", some "c"⟩) (some "boom")).1 =
      { status := 404, body := some notFoundBody } ∧
    (∃ a ∈ ((updateArticle ⟨[⟨1, "a", "b"⟩], 2⟩ 1
        (some ⟨none, some "t", some "c"⟩) (some "boom")).2.1).rows,
      a.id = 1 ∧ a.title = (decodeArticle ⟨none, some "t", some "c"⟩).title ∧
      a.content = (decodeArticle ⟨none, some "t", some "c"⟩).content) :=
  ⟨by decide,
   c10_rows_affected_error_404 ⟨[⟨1, "a", "b"⟩], 2⟩ 1 ⟨none, some "t", some "c"⟩ "boom"
     (by decide)⟩
